import Mathlib

/-!
Verification of the kotori conversational runtime against its specification.

The Python sources are shallowly embedded: strings are Lean String values
over their character lists, Python floats are modelled as exact rationals,
Python sets of strings are modelled as duplicate-free insertion lists
(membership is all that the code observes), and fallible operations either
return Except values or are driven by an explicit reply value describing
the outcome of the external AnkiConnect call.
-/

namespace Kotori

/-! ## Python string primitives (ASCII model) -/

/-- Python str.strip / the regex class backslash-s on ASCII text:
space, tab, newline, carriage return, vertical tab, form feed. -/
def isPySpace (c : Char) : Bool :=
  c = ' ' || c = '\t' || c = '\n' || c = '\r' || c = '\x0b' || c = '\x0c'

/-- The regex class backslash-w on ASCII text: letters, digits, underscore. -/
def isPyWord (c : Char) : Bool :=
  c.isAlpha || c.isDigit || c = '_'

/-- Python str.lower on ASCII text. -/
def pyLower (s : String) : String :=
  ⟨s.data.map Char.toLower⟩

/-- Python str.strip: drop leading and trailing whitespace. -/
def pyStrip (s : String) : String :=
  ⟨((s.data.dropWhile isPySpace).reverse.dropWhile isPySpace).reverse⟩

/-- One pass of re.sub replacing every maximal whitespace run by a single
space; the Boolean records whether the previous character was whitespace. -/
def collapseWsAux : Bool → List Char → List Char
  | _, [] => []
  | prev, c :: rest =>
    if isPySpace c then
      if prev then collapseWsAux true rest else ' ' :: collapseWsAux true rest
    else c :: collapseWsAux false rest

/-- re.sub of one or more whitespace characters by a single space. -/
def collapseWs (s : String) : String :=
  ⟨collapseWsAux false s.data⟩

/-- Maximal runs of characters satisfying p, in order of occurrence. -/
def splitRunsAux (p : Char → Bool) : List Char → List Char → List (List Char)
  | [], cur => if cur.isEmpty then [] else [cur.reverse]
  | c :: rest, cur =>
    if p c then splitRunsAux p rest (c :: cur)
    else if cur.isEmpty then splitRunsAux p rest []
    else cur.reverse :: splitRunsAux p rest []

def splitRuns (p : Char → Bool) (s : String) : List String :=
  (splitRunsAux p s.data []).map (fun l => ⟨l⟩)

/-- Code-point lexicographic comparison on character lists (Python string
comparison). -/
def strLeAux : List Char → List Char → Bool
  | [], _ => true
  | _ :: _, [] => false
  | a :: as, b :: bs => if a = b then strLeAux as bs else decide (a.toNat < b.toNat)

def strLe (a b : String) : Bool := strLeAux a.data b.data

/-- Stable insertion into an ascending list, used to model Python sorted. -/
def insortStr (x : String) : List String → List String
  | [] => [x]
  | y :: ys => if strLe x y then x :: y :: ys else y :: insortStr x ys

/-- Python sorted on a list of strings (ascending code-point order). -/
def sortStrings (l : List String) : List String := l.foldr insortStr []

/-- Python in on strings: needle occurs as a contiguous substring of hay. -/
def subAtAux : List Char → List Char → Bool
  | [], _ => true
  | _ :: _, [] => false
  | a :: as, b :: bs => a = b && subAtAux as bs

def containsSubAux (needle : List Char) : List Char → Bool
  | [] => subAtAux needle []
  | l@(_ :: rest) => subAtAux needle l || containsSubAux needle rest

def containsSub (hay needle : String) : Bool :=
  containsSubAux needle.data hay.data

/-! ## Card-answer post-processing (kotori_bot.KotoriBot._do_card_answer) -/

/-- re.search of the literal I D colon space followed by one or more digits:
leftmost occurrence, group is the maximal digit run.  Returns the empty
string when there is no match, exactly as the card_id local in the source. -/
def parseCardIdAux : List Char → List Char
  | [] => []
  | l@(_ :: rest) =>
    match l with
    | 'I' :: 'D' :: ':' :: ' ' :: d :: ds =>
      if d.isDigit then d :: ds.takeWhile Char.isDigit
      else parseCardIdAux rest
    | _ => parseCardIdAux rest

/-- The card_id extracted by re.search from the active_card string. -/
def parse_card_id (card : String) : String := ⟨parseCardIdAux card.data⟩

/-- re.search of the literal OVERALL_MASTERY colon space followed by a single
digit: leftmost occurrence, yielding that digit, or none. -/
def parseMasteryAux : List Char → Option Char
  | [] => none
  | l@(_ :: rest) =>
    match l with
    | 'O' :: 'V' :: 'E' :: 'R' :: 'A' :: 'L' :: 'L' :: '_' :: 'M' :: 'A' :: 'S' :: 'T' :: 'E' :: 'R' :: 'Y' :: ':' :: ' ' :: d :: _ =>
      if d.isDigit then some d else parseMasteryAux rest
    | _ => parseMasteryAux rest

/-- The overall_mastery local of _do_card_answer before the ease-4 clamp:
0 when the pattern does not occur, else the matched digit value. -/
def parse_overall_mastery (assessment : String) : Nat :=
  match parseMasteryAux assessment.data with
  | none => 0
  | some d => d.toNat - '0'.toNat

/-- An Anki tool invocation issued by the card-answer post-processing. -/
inductive AnkiToolCall where
  | relearn (card_ids : List String)
  | answer (card_id : String) (ease : Nat)
deriving DecidableEq, Repr

/-- The synthesized ToolMessage appended to the session messages. -/
structure ToolMsgRec where
  name : String
  tool_call_id : String
  content : String
deriving DecidableEq, Repr

/-- The observable effect of one _do_card_answer run: the tool invocations
in order, and the messages appended to state.messages. -/
structure CardAnswerEffect where
  calls : List AnkiToolCall
  appended : List ToolMsgRec
deriving DecidableEq, Repr

/-- KotoriBot._do_card_answer.  The relearn_result and answer_result
arguments stand for the strings returned by the two awaited tool calls. -/
def do_card_answer (card assessment relearn_result answer_result : String) :
    CardAnswerEffect :=
  if card ≠ "" ∧ assessment ≠ "" then
    let card_id := parse_card_id card
    let m0 := parse_overall_mastery assessment
    let overall_mastery := if 4 ≤ m0 then 4 else m0
    if card_id ≠ "" ∧ 0 < overall_mastery then
      let result := "Card call for ID: " ++ card_id ++ " with ease: " ++
        toString overall_mastery ++ ": " ++ relearn_result ++ ", " ++ answer_result
      { calls := [.relearn [card_id], .answer card_id overall_mastery],
        appended := [{ name := "answer_card",
                       tool_call_id := "answer_card_" ++ card_id,
                       content := result }] }
    else { calls := [], appended := [] }
  else { calls := [], appended := [] }

/-- Modelled from the spec: some occurrence of the pattern OVERALL_MASTERY
colon space followed by a score of 1 through 5, the pattern the
specification prescribes for mastery extraction (the source regex accepts
any digit). -/
def specMasteryOccursAux : List Char → Bool
  | [] => false
  | l@(_ :: rest) =>
    match l with
    | 'O' :: 'V' :: 'E' :: 'R' :: 'A' :: 'L' :: 'L' :: '_' :: 'M' :: 'A' :: 'S' :: 'T' :: 'E' :: 'R' :: 'Y' :: ':' :: ' ' :: d :: _ =>
      (decide ('1' ≤ d) && decide (d ≤ '5')) || specMasteryOccursAux rest
    | _ => specMasteryOccursAux rest

def specMasteryPatternOccurs (assessment : String) : Bool :=
  specMasteryOccursAux assessment.data

/-! ## Post-tools routing (kotori_bot.KotoriBot._route_after_tools and
_setup_edges) -/

/-- The valid_destinations list inside _route_after_tools. -/
def valid_destinations : List String :=
  ["card_answer", "conversation", "assessment", "mode_selection", "free_conversation"]

/-- The destination list declared on the conditional edge leaving the tools
node in _setup_edges. -/
def tools_edge_destinations : List String :=
  ["conversation", "mode_selection", "free_conversation"]

/-- KotoriBot._route_after_tools: state.get of calling_node with default
mode_selection_prompt, returned when it is a valid destination, else the
mode_selection_prompt fallback. -/
def route_after_tools (calling_node : Option String) : String :=
  let c := calling_node.getD "mode_selection_prompt"
  if c ∈ valid_destinations then c else "mode_selection_prompt"

/-! ## Card retrieval node (kotori_bot.KotoriBot._retrieve_cards_node) -/

/-- Outcome of one _retrieve_cards_node step: the next route and the value
written to state.active_cards (none when the field is left unchanged). -/
structure RetrieveOutcome where
  next : String
  active_cards : Option String
deriving DecidableEq, Repr

/-- KotoriBot._retrieve_cards_node, driven by the result of the
find_cards_to_talk_about call: an exception falls back to free
conversation, a result containing Error or No cards found falls back to
free conversation, any other result routes to conversation and is stored
in active_cards. -/
def retrieve_cards_node (query : Except Unit String) : RetrieveOutcome :=
  match query with
  | .error _ => { next := "free_conversation", active_cards := none }
  | .ok cards_result =>
    if containsSub cards_result "Error" || containsSub cards_result "No cards found" then
      { next := "free_conversation", active_cards := none }
    else
      { next := "conversation", active_cards := some cards_result }

/-- The string returned by find_cards_to_talk_about (anki.anki) when the
findCards POST raises a requests ConnectionError: its except handler,
unlike the handlers of every other tool in the module, omits the
Error prefix. -/
def find_cards_connection_error_message : String :=
  "Could not connect to AnkiConnect. Make sure Anki is running and AnkiConnect addon is installed."

/-! ## Web adapter input side (kotori_adapter.KotoriBotAdapter) -/

/-- The maxsize with which the adapter constructs its input queue: the
asyncio.Queue default, 0, meaning an unbounded queue. -/
def input_queue_maxsize : Nat := 0

/-- The adapter state read and written by send_user_message. -/
structure AdapterInput where
  waiting_for_input : Bool
  input_queue : List String
deriving DecidableEq, Repr

/-- KotoriBotAdapter.send_user_message: rejected while no interrupt is
pending; otherwise the reply is enqueued, waiting_for_input is cleared and
the call is accepted. -/
def send_user_message (st : AdapterInput) (message : String) : AdapterInput × Bool :=
  if !st.waiting_for_input then (st, false)
  else ({ waiting_for_input := false, input_queue := st.input_queue ++ [message] }, true)

/-! ## Session registry sweep (session_manager.SessionManager.cleanup_inactive_sessions) -/

/-- The registry fields the sweep touches; last_activity is a timestamp in
seconds, modelled as a rational. -/
structure SessionRec where
  sid : String
  is_active : Bool
  last_activity : ℚ
deriving DecidableEq, Repr

structure Registry where
  sessions : List SessionRec
  session_locks : List String
deriving DecidableEq, Repr

/-- The sweep condition: inactive, and age in hours strictly above the
threshold (total_seconds divided by 3600 compared with a strict greater). -/
def should_remove (now max_age_hours : ℚ) (s : SessionRec) : Bool :=
  !s.is_active && decide ((now - s.last_activity) / 3600 > max_age_hours)

/-- SessionManager.cleanup_inactive_sessions: collect the ids to remove,
delete each such session record and its lock, return the removal count.
Dictionary deletion by key is modelled as filtering the entry lists by the
collected ids. -/
def cleanup_inactive_sessions (reg : Registry) (now max_age_hours : ℚ) :
    Registry × Nat :=
  let to_remove := (reg.sessions.filter (should_remove now max_age_hours)).map SessionRec.sid
  ({ sessions := reg.sessions.filter (fun s => !to_remove.contains s.sid),
     session_locks := reg.session_locks.filter (fun i => !to_remove.contains i) },
   to_remove.length)

/-! ## Bot configuration (kotori_bot.KotoriBot.set_config / set_temperature) -/

/-- Dynamic Python values as far as the validation code inspects them:
strings, numbers (float or int, modelled as exact rationals), anything
else.  Python bools pass the isinstance number check; they are subsumed
under pynum here. -/
inductive PyVal where
  | pystr (s : String)
  | pynum (q : ℚ)
  | pyother
deriving DecidableEq, Repr

/-- A config dictionary restricted to the keys set_config inspects; a
missing key is none. -/
structure ConfigDict where
  language : Option PyVal
  deck_name : Option PyVal
  temperature : Option PyVal
deriving DecidableEq, Repr

/-- The argument of set_config: either not a dictionary at all, or a
dictionary. -/
inductive ConfigArg where
  | notDict
  | asDict (d : ConfigDict)
deriving DecidableEq, Repr

/-- KotoriBot.set_config.  Returns the stored config after the call and
whether ValueError was raised; on a raise the stored config is the old
one, since every check precedes the assignment. -/
def set_config (stored : ConfigDict) (arg : ConfigArg) : ConfigDict × Bool :=
  match arg with
  | .notDict => (stored, true)
  | .asDict d =>
    if ¬(d.language = some (.pystr "english") ∨ d.language = some (.pystr "japanese")) then
      (stored, true)
    else if (match d.deck_name with
             | some (.pystr _) => false
             | some _ => true
             | none => false) then (stored, true)
    else
      match d.temperature with
      | some (.pynum q) => if q < 0 ∨ q > 2 then (stored, true) else (d, false)
      | some _ => (stored, true)
      | none => (d, false)

/-- KotoriBot.set_temperature: reject values outside the closed interval
from 0 to 2, otherwise store the value under the temperature key. -/
def set_temperature (stored : ConfigDict) (t : ℚ) : ConfigDict × Bool :=
  if t < 0 ∨ t > 2 then (stored, true)
  else ({ stored with temperature := some (.pynum t) }, false)

/-! ## Flashcard client answer_card (anki.anki.answer_card) -/

/-- Outcome of the single POST the tool performs, as its try block can
observe it: a transport failure (connection refused or timeout), any
other raised exception with its message, or a decoded JSON reply carrying
the error field and the answerCards result list of booleans. -/
inductive AnkiReply where
  | connError
  | timeoutError
  | otherRaise (msg : String)
  | reply (error : Option String) (result : List Bool)
deriving DecidableEq, Repr

/-- A request sent to the AnkiConnect endpoint, restricted to the one
action answer_card issues: answerCards with a single cardId and ease pair. -/
inductive AnkiRequest where
  | answerCards (card_id : Int) (ease : Int)
deriving DecidableEq, Repr

/-- Truthiness of result.get of the error field: present and non-empty. -/
def errorTruthy : Option String → Bool
  | none => false
  | some e => e ≠ ""

def easeName (ease : Int) : String :=
  if ease = 1 then "Again" else if ease = 2 then "Hard"
  else if ease = 3 then "Good" else "Easy"

/-- anki.anki.answer_card driven by the outcome of its POST.  Returns the
requests attempted against the service and the string handed back to the
caller; every exceptional outcome is converted to an error string by the
except handlers, so the function never raises. -/
def answer_card (card_id ease : Int) (outcome : AnkiReply) :
    List AnkiRequest × String :=
  if ¬(ease = 1 ∨ ease = 2 ∨ ease = 3 ∨ ease = 4) then
    ([], "Error: Ease must be 1 (Again), 2 (Hard), 3 (Good), or 4 (Easy)")
  else
    let reqs := [AnkiRequest.answerCards card_id ease]
    match outcome with
    | .connError =>
      (reqs, "Error: Could not connect to AnkiConnect. Make sure Anki is running and AnkiConnect addon is installed.")
    | .timeoutError => (reqs, "Error: Request to AnkiConnect timed out.")
    | .otherRaise msg => (reqs, "Error answering card: " ++ msg)
    | .reply err success =>
      if errorTruthy err then
        (reqs, "Error answering card: " ++ err.getD "")
      else if success.headD false then
        (reqs, "Successfully answered card " ++ toString card_id ++ " with ease: " ++ easeName ease)
      else
        (reqs, "Failed to answer card " ++ toString card_id ++ ". Card may not exist or may not be in review mode.")

/-! ## Conversation store (session_manager.ConversationManager.add_message) -/

inductive MsgKind where
  | user
  | ai
  | system
  | tool
deriving DecidableEq, Repr

/-- The message fields add_message inspects. -/
structure ChatMsg where
  id : String
  message_type : MsgKind
  content : String
deriving DecidableEq, Repr

/-- Python content.strip().lower(). -/
def normContent (s : String) : String := pyLower (pyStrip s)

/-- The window of recent messages the content check scans: the last five
when the store holds more than five messages, else the whole store. -/
def recentWindow (store : List ChatMsg) : List ChatMsg :=
  if store.length > 5 then store.drop (store.length - 5) else store

/-- ConversationManager.add_message on one session: drop on id collision,
drop on a same-kind normalized-content match within the recent window,
else append at the end. -/
def add_message (store : List ChatMsg) (m : ChatMsg) : List ChatMsg :=
  if store.any (fun x => x.id = m.id) then store
  else if (recentWindow store).any
      (fun r => r.message_type = m.message_type &&
        normContent r.content = normContent m.content) then store
  else store ++ [m]

/-- The store invariant of the claim: no two stored messages share an id,
and no two consecutive messages of one kind have equal normalized content. -/
def StoreOk (store : List ChatMsg) : Prop :=
  store.Pairwise (fun a b => a.id ≠ b.id) ∧
  List.Chain' (fun a b =>
    ¬(a.message_type = b.message_type ∧ normContent a.content = normContent b.content)) store

/-! ## difflib.SequenceMatcher ratio (used by the duplicate-interrupt filter)

The filter calls SequenceMatcher with no junk predicate.  With no junk,
find_longest_match returns the longest matching block, ties broken by the
earliest start in a and then the earliest start in b, and matching_blocks
recurses on the pieces left and right of that block; ratio is twice the
total matched length over the total length.  The float ratio is modelled
as an exact rational, and the autojunk heuristic (which only affects
second arguments of length at least 200) is not modelled. -/

def commonPrefixLen : List Char → List Char → Nat
  | a :: as, b :: bs => if a = b then commonPrefixLen as bs + 1 else 0
  | _, _ => 0

/-- Length of the matching run starting at positions i and j, clipped to
the active ranges ending at ahi and bhi. -/
def matchLenAt (a b : List Char) (i j ahi bhi : Nat) : Nat :=
  min (commonPrefixLen (a.drop i) (b.drop j)) (min (ahi - i) (bhi - j))

/-- The candidate start pairs of the two ranges, in lexicographic order. -/
def pairList (alo ahi blo bhi : Nat) : List (Nat × Nat) :=
  (List.range' alo (ahi - alo)).foldr (fun i acc =>
    (List.range' blo (bhi - blo)).foldr (fun j acc2 => (i, j) :: acc2) acc) []

/-- Scan of the candidate pairs carrying the best triple seen so far,
replacing it only on a strictly larger size. -/
def flmAux (a b : List Char) (ahi bhi : Nat) :
    List (Nat × Nat) → Nat → Nat → Nat → Nat × Nat × Nat
  | [], bi, bj, bk => (bi, bj, bk)
  | (i, j) :: rest, bi, bj, bk =>
    let k := matchLenAt a b i j ahi bhi
    if bk < k then flmAux a b ahi bhi rest i j k
    else flmAux a b ahi bhi rest bi bj bk

/-- find_longest_match on the ranges from alo to ahi and blo to bhi:
the triple of start in a, start in b, and size, maximizing size with ties
to the smaller start in a and then in b (pairs are visited in
lexicographic order and the best is replaced only on a strictly larger
size). -/
def findLongestMatchFrom (a b : List Char) (alo ahi blo bhi : Nat) :
    Nat × Nat × Nat :=
  flmAux a b ahi bhi (pairList alo ahi blo bhi) alo blo 0

/-- Total size of the matching blocks produced by the matching_blocks
recursion; the fuel argument bounds the recursion depth and any value
above the combined range length is enough. -/
def matchTotalAux (a b : List Char) : Nat → Nat → Nat → Nat → Nat → Nat
  | 0, _, _, _, _ => 0
  | fuel + 1, alo, ahi, blo, bhi =>
    let t := findLongestMatchFrom a b alo ahi blo bhi
    if t.2.2 = 0 then 0
    else
      matchTotalAux a b fuel alo t.1 blo t.2.1 + t.2.2 +
        matchTotalAux a b fuel (t.1 + t.2.2) ahi (t.2.1 + t.2.2) bhi

/-- SequenceMatcher(None, a, b).ratio() as an exact rational. -/
def ratioQ (a b : String) : ℚ :=
  let la := a.data.length
  let lb := b.data.length
  let m := matchTotalAux a.data b.data (la + lb + 1) 0 la 0 lb
  if la + lb = 0 then 1 else (2 * m : ℚ) / ((la : ℚ) + (lb : ℚ))

/-! ## Duplicate-interrupt filter (kotori_adapter.KotoriBotAdapter._handle_interrupt) -/

/-- Version 1 normalization: strip, lowercase, collapse whitespace runs. -/
def normalizeV1 (content : String) : String :=
  collapseWs (pyLower (pyStrip content))

/-- Version 2 normalization: version 1 with every character that is
neither a word character nor whitespace replaced by a space, whitespace
runs collapsed again, then stripped. -/
def normalizeV2 (content : String) : String :=
  pyStrip (collapseWs ⟨(normalizeV1 content).data.map
    (fun c => if !(isPyWord c || isPySpace c) then ' ' else c)⟩)

/-- The findall of maximal alphabetic words on the lowercased content: a
word-boundary-delimited letter run is exactly a maximal word-character run
consisting solely of letters. -/
def alphaWords (content : String) : List String :=
  (splitRuns isPyWord (pyLower content)).filter (fun w => w.data.all Char.isAlpha)

/-- Version 3 normalization: the sorted deduplicated alphabetic words
joined by single spaces. -/
def normalizeV3 (content : String) : String :=
  String.intercalate " " (sortStrings (alphaWords content).dedup)

/-- The findall of word-character runs of length at least four on the
lowercased content (the key_phrases local). -/
def keyPhrases (content : String) : List String :=
  (splitRuns isPyWord (pyLower content)).filter (fun w => 4 ≤ w.data.length)

/-- The phrase signature: the first three key phrases, sorted, joined with
a vertical bar. -/
def phraseSignature (content : String) : String :=
  String.intercalate "|" (sortStrings ((keyPhrases content).take 3))

/-- The six values the filter tests membership for: the three normalized
variants and their md5 hex digests; the digest function is a parameter of
the model. -/
def interruptChecks (md5 : String → String) (content : String) : List String :=
  let v1 := normalizeV1 content
  let v2 := normalizeV2 content
  let v3 := normalizeV3 content
  [v1, v2, v3, md5 v1, md5 v2, md5 v3]

/-- The storage classifier: a value is filed under the hash set when it
has length 32 and starts with one of the letters a through f, else under
the content set. -/
def looksLikeHash (c : String) : Bool :=
  (match c.data with
   | [] => false
   | ch :: _ => decide ('a' ≤ ch) && decide (ch ≤ 'f')) && c.length = 32

/-- Python set add: append only when absent. -/
def setInsert (l : List String) (x : String) : List String :=
  if x ∈ l then l else l ++ [x]

/-- Store every non-empty check value into the content or hash set
according to the classifier. -/
def storeChecks (contents hashes : List String) : List String → List String × List String
  | [] => (contents, hashes)
  | c :: rest =>
    if c.length > 0 then
      if looksLikeHash c then storeChecks contents (setInsert hashes c) rest
      else storeChecks (setInsert contents c) hashes rest
    else storeChecks contents hashes rest

/-- The adapter fields the filter reads and writes; times are seconds as
rationals and the two tracking sets are duplicate-free insertion lists. -/
structure InterruptFilterState where
  waiting_for_input : Bool
  last_interrupt_time : Option ℚ
  last_interrupt_content : Option String
  sent_message_contents : List String
  sent_message_hashes : List String
deriving DecidableEq, Repr

/-- One filter step: the updated state and whether an ai_response event
was emitted for the examined interrupt. -/
structure InterruptStep where
  state : InterruptFilterState
  emitted : Bool
deriving DecidableEq, Repr

/-- The cooldown test: a previous accepted interrupt exists and less than
half a second has elapsed since it. -/
def cooldownHit (last : Option ℚ) (now : ℚ) : Bool :=
  match last with
  | none => false
  | some t => decide (now - t < 1/2)

/-- The similarity test: the ratio against the previous accepted content
is strictly above 0.80. -/
def similarityHit (last : Option String) (content : String) : Bool :=
  match last with
  | none => false
  | some c => decide (ratioQ c content > 4/5)

/-- KotoriBotAdapter._handle_interrupt under the per-session interrupt
lock, for an interrupt carrying the given content at the given time.
The trimming of tracking sets past 100 entries down to an unspecified 50
element subset happens only after the decision and is not modelled. -/
def handleInterrupt (md5 : String → String) (st : InterruptFilterState)
    (now : ℚ) (content : String) : InterruptStep :=
  if st.waiting_for_input then ⟨st, false⟩
  else if cooldownHit st.last_interrupt_time now then
    ⟨{ st with waiting_for_input := true }, false⟩
  else if similarityHit st.last_interrupt_content content then
    ⟨{ st with waiting_for_input := true }, false⟩
  else
    let checks := interruptChecks md5 content
    if checks.any (fun c =>
        c ∈ st.sent_message_contents || c ∈ st.sent_message_hashes) then
      ⟨{ st with waiting_for_input := true }, false⟩
    else
      let kp := keyPhrases content
      if 3 ≤ kp.length then
        let sig := phraseSignature content
        if sig ∈ st.sent_message_contents then
          ⟨{ st with waiting_for_input := true }, false⟩
        else
          let pair := storeChecks (setInsert st.sent_message_contents sig)
            st.sent_message_hashes checks
          ⟨{ waiting_for_input := true, last_interrupt_time := some now,
             last_interrupt_content := some content,
             sent_message_contents := pair.1,
             sent_message_hashes := pair.2 }, true⟩
      else
        let pair := storeChecks st.sent_message_contents st.sent_message_hashes checks
        ⟨{ waiting_for_input := true, last_interrupt_time := some now,
           last_interrupt_content := some content,
           sent_message_contents := pair.1,
           sent_message_hashes := pair.2 }, true⟩

/-- A stand-in digest for concrete evaluations; the characterization
theorem quantifies over every digest function. -/
def exampleMd5 (s : String) : String := "md5:" ++ s

/-- The adapter state right after construction or start_conversation. -/
def initFilterState : InterruptFilterState :=
  ⟨false, none, none, [], []⟩

/-- State after accepting the interrupt abcde at time 0 and then consuming
the user reply (send_user_message clears waiting_for_input). -/
def c1StateA : InterruptFilterState :=
  { (handleInterrupt exampleMd5 initFilterState 0 "abcde").state with
      waiting_for_input := false }

def c1ContentA : String := "dddd eeee ffff gggg"

def c1ContentB : String := "ffff eeee dddd hhhh"

/-- State after accepting c1ContentA at time 0 and consuming the reply. -/
def c1StateB : InterruptFilterState :=
  { (handleInterrupt exampleMd5 initFilterState 0 c1ContentA).state with
      waiting_for_input := false }

set_option maxRecDepth 16000

/-! ## Theorems -/

/-- C2: for every stored active_card string and every assessment string,
the card-answer post-processing parses the id from the I D pattern and the
mastery from the OVERALL_MASTERY pattern, clamps mastery at least 4 to
ease 4, and exactly when a non-empty id and a positive mastery were both
parsed it invokes relearn_cards on the singleton id list, then answer_card
with that id and the resulting ease, and appends one synthesized
tool-result message; otherwise it does nothing. -/
theorem c2_card_answer_characterization (card assessment r1 r2 : String) :
    (parse_card_id card ≠ "" ∧
        0 < (if 4 ≤ parse_overall_mastery assessment then 4
             else parse_overall_mastery assessment) →
      do_card_answer card assessment r1 r2 =
        { calls := [.relearn [parse_card_id card],
                    .answer (parse_card_id card)
                      (if 4 ≤ parse_overall_mastery assessment then 4
                       else parse_overall_mastery assessment)],
          appended := [{ name := "answer_card",
                         tool_call_id := "answer_card_" ++ parse_card_id card,
                         content := "Card call for ID: " ++ parse_card_id card ++
                           " with ease: " ++
                           toString (if 4 ≤ parse_overall_mastery assessment then 4
                                     else parse_overall_mastery assessment) ++
                           ": " ++ r1 ++ ", " ++ r2 }] })
    ∧ (¬(parse_card_id card ≠ "" ∧
          0 < (if 4 ≤ parse_overall_mastery assessment then 4
               else parse_overall_mastery assessment)) →
      do_card_answer card assessment r1 r2 = { calls := [], appended := [] }) := by
  constructor
  · intro h
    have hc : card ≠ "" := by
      intro e
      apply h.1
      rw [e]
      rfl
    have ha : assessment ≠ "" := by
      intro e
      rw [e] at h
      have : parse_overall_mastery "" = 0 := rfl
      rw [this] at h
      simp at h
    simp only [do_card_answer, if_pos (And.intro hc ha), if_pos h]
  · intro h
    by_cases hca : card ≠ "" ∧ assessment ≠ ""
    · simp only [do_card_answer, if_pos hca, if_neg h]
    · simp only [do_card_answer, if_neg hca]

/-- Witness for C2 at a concrete card and assessment. -/
theorem c2_card_answer_witness :
    do_card_answer "ID: 7" "OVERALL_MASTERY: 3" "r1" "r2" =
      { calls := [.relearn ["7"], .answer "7" 3],
        appended := [{ name := "answer_card", tool_call_id := "answer_card_7",
                       content := "Card call for ID: 7 with ease: 3: r1, r2" }] } := by
  have h := (c2_card_answer_characterization "ID: 7" "OVERALL_MASTERY: 3" "r1" "r2").1
    (by decide)
  rw [h]
  decide

/-- C4 (amended): whenever the code-level mastery parse yields 0, that is,
no occurrence of OVERALL_MASTERY colon space digit with a non-zero first
matched digit exists, the post-processing performs no tool call and
appends nothing. -/
theorem c4_malformed_assessment_ignored (card assessment r1 r2 : String)
    (h : parse_overall_mastery assessment = 0) :
    do_card_answer card assessment r1 r2 = { calls := [], appended := [] } := by
  by_cases hca : card ≠ "" ∧ assessment ≠ ""
  · have hm : ¬(parse_card_id card ≠ "" ∧
        0 < (if 4 ≤ parse_overall_mastery assessment then 4
             else parse_overall_mastery assessment)) := by
      rw [h]
      simp
    simp only [do_card_answer, if_pos hca, if_neg hm]
  · simp only [do_card_answer, if_neg hca]

/-- Witness for C4 at a concrete malformed assessment. -/
theorem c4_malformed_assessment_witness :
    parse_overall_mastery "The user did well overall." = 0 ∧
    do_card_answer "ID: 123" "The user did well overall." "r" "a" =
      { calls := [], appended := [] } :=
  ⟨by decide,
   c4_malformed_assessment_ignored "ID: 123" "The user did well overall." "r" "a"
     (by decide)⟩

/-- C4 counterexample: the assessment OVERALL_MASTERY colon space 7 does
not contain the 1 through 5 pattern of the claim, yet the code invokes
relearn_cards and answer_card with ease 4 on it. -/
theorem c4_counterexample :
    specMasteryPatternOccurs "OVERALL_MASTERY: 7" = false ∧
    do_card_answer "ID: 123" "OVERALL_MASTERY: 7" "r" "a" =
      { calls := [.relearn ["123"], .answer "123" 4],
        appended := [{ name := "answer_card", tool_call_id := "answer_card_123",
                       content := "Card call for ID: 123 with ease: 4: r, a" }] } := by
  constructor
  · decide
  · decide

/-- C3 (amended): the post-tools routing returns calling_node exactly when
it is one of the five valid destinations, else the mode_selection_prompt
fallback; the declared destinations of the tools edge are only
conversation, mode_selection and free_conversation, so neither the
fallback nor the valid destinations card_answer and assessment are
declared on the tools edge. -/
theorem c3_route_after_tools_characterization (calling_node : Option String) :
    (route_after_tools calling_node =
      if calling_node.getD "mode_selection_prompt" ∈ valid_destinations
      then calling_node.getD "mode_selection_prompt"
      else "mode_selection_prompt")
    ∧ (route_after_tools calling_node ∈ valid_destinations ∨
        route_after_tools calling_node = "mode_selection_prompt")
    ∧ ("conversation" ∈ tools_edge_destinations ∧
       "mode_selection" ∈ tools_edge_destinations ∧
       "free_conversation" ∈ tools_edge_destinations)
    ∧ "mode_selection_prompt" ∉ tools_edge_destinations
    ∧ "assessment" ∉ tools_edge_destinations
    ∧ "card_answer" ∉ tools_edge_destinations := by
  refine ⟨rfl, ?_, by decide, by decide, by decide, by decide⟩
  by_cases h : calling_node.getD "mode_selection_prompt" ∈ valid_destinations
  · exact Or.inl (by simp [route_after_tools, h])
  · exact Or.inr (by simp [route_after_tools, h])

/-- C3 counterexample: with an empty calling_node the routing falls back
to mode_selection_prompt, which is not a declared destination of the
tools edge set. -/
theorem c3_counterexample :
    route_after_tools (some "") = "mode_selection_prompt" ∧
    "mode_selection_prompt" ∉ tools_edge_destinations := by
  constructor
  · decide
  · decide

/-- C5: when AnkiConnect is unreachable, find_cards_to_talk_about returns
its connection-failure text, which contains neither Error nor No cards
found, so the retrieve_cards node routes to conversation and stores the
failure text as the active card instead of falling back to free
conversation as the claim and the specification require. -/
theorem c5_connection_error_routes_to_conversation :
    containsSub find_cards_connection_error_message "Error" = false ∧
    containsSub find_cards_connection_error_message "No cards found" = false ∧
    retrieve_cards_node (Except.ok find_cards_connection_error_message) =
      { next := "conversation",
        active_cards := some find_cards_connection_error_message } := by
  refine ⟨by decide, by decide, ?_⟩
  decide

/-- C6 (amended): send_user_message is rejected and enqueues nothing while
no interrupt is pending, enqueues exactly one reply, clears
waiting_for_input and accepts while one is pending, and an immediately
following send is always rejected; the input queue itself is created with
the asyncio default maxsize 0, that is, unbounded rather than depth 1. -/
theorem c6_send_user_message_characterization (st : AdapterInput) (message m2 : String) :
    (st.waiting_for_input = false → send_user_message st message = (st, false))
    ∧ (st.waiting_for_input = true →
        send_user_message st message =
          ({ waiting_for_input := false,
             input_queue := st.input_queue ++ [message] }, true))
    ∧ (send_user_message (send_user_message st message).1 m2).2 = false
    ∧ input_queue_maxsize = 0 := by
  cases st with
  | mk w q => cases w <;> simp [send_user_message, input_queue_maxsize]

/-- Witness for C6 at a concrete pending state. -/
theorem c6_send_user_message_witness :
    send_user_message ⟨true, []⟩ "hello" = (⟨false, ["hello"]⟩, true) :=
  (c6_send_user_message_characterization ⟨true, []⟩ "hello" "x").2.1 rfl

/-- C6 counterexample: the queue is constructed with maxsize 0, the
asyncio marker for an unbounded queue, not with the bounded depth 1 the
claim states. -/
theorem c6_counterexample :
    input_queue_maxsize = 0 ∧ ¬input_queue_maxsize = 1 := by
  decide

/-- C8 (amended): with pairwise-distinct session ids, the sweep returns
the number of inactive sessions strictly older than the threshold, keeps a
session exactly when it is not such a session, and keeps a lock exactly
when its id is not among the removed sessions. -/
theorem c8_cleanup_characterization (reg : Registry) (now max_age_hours : ℚ)
    (hids : reg.sessions.Pairwise (fun a b => a.sid ≠ b.sid)) :
    (cleanup_inactive_sessions reg now max_age_hours).2 =
      (reg.sessions.filter (should_remove now max_age_hours)).length
    ∧ (∀ s ∈ reg.sessions,
        (s ∈ (cleanup_inactive_sessions reg now max_age_hours).1.sessions ↔
          ¬(s.is_active = false ∧ (now - s.last_activity) / 3600 > max_age_hours)))
    ∧ (∀ i, i ∈ (cleanup_inactive_sessions reg now max_age_hours).1.session_locks ↔
        i ∈ reg.session_locks ∧
          ¬∃ s ∈ reg.sessions, should_remove now max_age_hours s = true ∧ s.sid = i) := by
  have hsymm : Symmetric (fun a b : SessionRec => a.sid ≠ b.sid) :=
    fun a b h e => h e.symm
  have hmem : ∀ i : String,
      (i ∈ (reg.sessions.filter (should_remove now max_age_hours)).map SessionRec.sid ↔
        ∃ s ∈ reg.sessions, should_remove now max_age_hours s = true ∧ s.sid = i) := by
    intro i
    simp only [List.mem_map, List.mem_filter]
    constructor
    · rintro ⟨s, ⟨hs, hp⟩, rfl⟩
      exact ⟨s, hs, hp, rfl⟩
    · rintro ⟨s, hs, hp, rfl⟩
      exact ⟨s, ⟨hs, hp⟩, rfl⟩
  refine ⟨by simp [cleanup_inactive_sessions], ?_, ?_⟩
  · intro s hs
    have hs_iff : s.sid ∈ (reg.sessions.filter (should_remove now max_age_hours)).map
        SessionRec.sid ↔ should_remove now max_age_hours s = true := by
      rw [hmem]
      constructor
      · rintro ⟨s2, hs2, hp2, hsid⟩
        by_cases he : s2 = s
        · exact he ▸ hp2
        · exact absurd hsid (hids.forall hsymm hs2 hs he)
      · intro hp
        exact ⟨s, hs, hp, rfl⟩
    simp only [cleanup_inactive_sessions, List.mem_filter, Bool.not_eq_true',
      List.contains, List.elem_eq_mem, decide_eq_false_iff_not]
    rw [hs_iff]
    simp only [should_remove, Bool.and_eq_true, Bool.not_eq_true', decide_eq_true_eq]
    tauto
  · intro i
    simp only [cleanup_inactive_sessions, List.mem_filter, Bool.not_eq_true',
      List.contains, List.elem_eq_mem, decide_eq_false_iff_not]
    rw [hmem]

/-- Witness for C8 on a concrete registry with one stale inactive session
and one active session. -/
theorem c8_cleanup_witness :
    (⟨"b", true, 0⟩ : SessionRec) ∈
      (cleanup_inactive_sessions ⟨[⟨"a", false, 0⟩, ⟨"b", true, 0⟩], ["a", "b"]⟩
        7200 1).1.sessions ∧
    (cleanup_inactive_sessions ⟨[⟨"a", false, 0⟩, ⟨"b", true, 0⟩], ["a", "b"]⟩
        7200 1).2 = 1 := by
  have h := c8_cleanup_characterization
    ⟨[⟨"a", false, 0⟩, ⟨"b", true, 0⟩], ["a", "b"]⟩ 7200 1
    (by simp)
  refine ⟨(h.2.1 ⟨"b", true, 0⟩ (by simp)).mpr (by simp), ?_⟩
  rw [h.1]
  have ha : should_remove 7200 1 ⟨"a", false, 0⟩ = true := by
    norm_num [should_remove]
  have hb : should_remove 7200 1 ⟨"b", true, 0⟩ = false := by
    norm_num [should_remove]
  simp [List.filter_cons, ha, hb]

/-- C8 counterexample: with threshold 0 an inactive session whose
last_activity equals the sweep time has age exactly 0, which is not
strictly greater than 0, so it is not deleted and the count is 0; the
claim that threshold 0 deletes all inactive sessions fails there. -/
theorem c8_counterexample :
    (cleanup_inactive_sessions ⟨[⟨"s1", false, 100⟩], ["s1"]⟩ 100 0).2 = 0 ∧
    (cleanup_inactive_sessions ⟨[⟨"s1", false, 100⟩], ["s1"]⟩ 100 0).1 =
      ⟨[⟨"s1", false, 100⟩], ["s1"]⟩ := by
  have h : should_remove 100 0 ⟨"s1", false, 100⟩ = false := by
    norm_num [should_remove]
  constructor <;> simp [cleanup_inactive_sessions, List.filter_cons, h]

/-- C9: set_config raises ValueError exactly when the argument is not a
dictionary, or its language is absent or not english or japanese, or a
present deck_name is not a string, or a present temperature is not a
number or lies outside the closed interval from 0 to 2; on a raise the
stored config is unchanged, otherwise the argument is stored.  Likewise
set_temperature raises exactly below 0 or above 2 and leaves the stored
config unchanged in that case. -/
theorem c9_set_config_characterization (stored : ConfigDict) (arg : ConfigArg) (t : ℚ) :
    ((set_config stored arg).2 = true ↔
      arg = .notDict ∨ ∃ d, arg = .asDict d ∧
        (¬(d.language = some (.pystr "english") ∨ d.language = some (.pystr "japanese"))
         ∨ (∃ v, d.deck_name = some v ∧ ∀ s, v ≠ .pystr s)
         ∨ (∃ q, d.temperature = some (.pynum q) ∧ (q < 0 ∨ q > 2))
         ∨ (∃ v, d.temperature = some v ∧ ∀ q, v ≠ .pynum q)))
    ∧ ((set_config stored arg).2 = true → (set_config stored arg).1 = stored)
    ∧ ((set_config stored arg).2 = false →
        ∃ d, arg = .asDict d ∧ (set_config stored arg).1 = d)
    ∧ ((set_temperature stored t).2 = true ↔ (t < 0 ∨ t > 2))
    ∧ ((set_temperature stored t).2 = true → (set_temperature stored t).1 = stored)
    ∧ ((set_temperature stored t).2 = false →
        (set_temperature stored t).1 = { stored with temperature := some (.pynum t) }) := by
  have hcfg : ((set_config stored arg).2 = true ↔
      arg = .notDict ∨ ∃ d, arg = .asDict d ∧
        (¬(d.language = some (.pystr "english") ∨ d.language = some (.pystr "japanese"))
         ∨ (∃ v, d.deck_name = some v ∧ ∀ s, v ≠ .pystr s)
         ∨ (∃ q, d.temperature = some (.pynum q) ∧ (q < 0 ∨ q > 2))
         ∨ (∃ v, d.temperature = some v ∧ ∀ q, v ≠ .pynum q)))
      ∧ ((set_config stored arg).2 = true → (set_config stored arg).1 = stored)
      ∧ ((set_config stored arg).2 = false →
          ∃ d, arg = .asDict d ∧ (set_config stored arg).1 = d) := by
    rcases arg with _ | ⟨lang, deck, temp⟩
    · refine ⟨by simp [set_config], by simp [set_config], by simp [set_config]⟩
    · by_cases hL : lang = some (.pystr "english") ∨ lang = some (.pystr "japanese")
      · rcases deck with _ | dv
        · rcases temp with _ | tv
          · refine ⟨?_, ?_, ?_⟩ <;> (simp [set_config, hL]; try tauto)
          · rcases tv with ts | tq | _
            · refine ⟨?_, ?_, ?_⟩ <;> (simp [set_config, hL]; try tauto)
            · by_cases hq : tq < 0 ∨ tq > 2
              · refine ⟨?_, ?_, ?_⟩ <;> (simp [set_config, hL, hq]; try tauto)
              · refine ⟨?_, ?_, ?_⟩ <;> (simp [set_config, hL, hq]; try tauto)
            · refine ⟨?_, ?_, ?_⟩ <;> (simp [set_config, hL]; try tauto)
        · rcases dv with ds | dq | _
          · rcases temp with _ | tv
            · refine ⟨?_, ?_, ?_⟩ <;> (simp [set_config, hL]; try tauto)
            · rcases tv with ts | tq | _
              · refine ⟨?_, ?_, ?_⟩ <;> (simp [set_config, hL]; try tauto)
              · by_cases hq : tq < 0 ∨ tq > 2
                · refine ⟨?_, ?_, ?_⟩ <;> (simp [set_config, hL, hq]; try tauto)
                · refine ⟨?_, ?_, ?_⟩ <;> (simp [set_config, hL, hq]; try tauto)
              · refine ⟨?_, ?_, ?_⟩ <;> (simp [set_config, hL]; try tauto)
          · refine ⟨?_, ?_, ?_⟩ <;> (simp [set_config, hL]; try tauto)
          · refine ⟨?_, ?_, ?_⟩ <;> (simp [set_config, hL]; try tauto)
      · refine ⟨?_, ?_, ?_⟩ <;> (simp [set_config, hL]; try tauto)
  refine ⟨hcfg.1, hcfg.2.1, hcfg.2.2, ?_, ?_, ?_⟩
  · simp only [set_temperature]
    split_ifs with h <;> simp [h]
  · simp only [set_temperature]
    split_ifs with h <;> simp [h]
  · simp only [set_temperature]
    split_ifs with h <;> simp [h]

/-- Witness for C9: a rejected non-dictionary call and an out-of-range
temperature leave the stored config unchanged, and a valid call stores
the argument. -/
theorem c9_set_config_witness :
    (set_config ⟨some (.pystr "english"), none, none⟩ .notDict).2 = true ∧
    (set_config ⟨some (.pystr "english"), none, none⟩ .notDict).1 =
      ⟨some (.pystr "english"), none, none⟩ ∧
    (set_temperature ⟨some (.pystr "english"), none, none⟩ 3).2 = true ∧
    (set_temperature ⟨some (.pystr "english"), none, none⟩ 3).1 =
      ⟨some (.pystr "english"), none, none⟩ := by
  have h := c9_set_config_characterization ⟨some (.pystr "english"), none, none⟩ .notDict 3
  have h1 : (set_config ⟨some (.pystr "english"), none, none⟩ .notDict).2 = true :=
    h.1.mpr (Or.inl rfl)
  have h4 : (set_temperature ⟨some (.pystr "english"), none, none⟩ 3).2 = true :=
    h.2.2.2.1.mpr (Or.inr (by norm_num))
  exact ⟨h1, h.2.1 h1, h4, h.2.2.2.2.1 h4⟩

/-- C10: answer_card rejects an ease outside 1 through 4 with the exact
error string and no request; with a valid ease it attempts exactly one
answerCards request for that card, and every transport or protocol
failure is returned to the caller as an error string rather than raised. -/
theorem c10_answer_card_characterization (card_id ease : Int) (outcome : AnkiReply) :
    (¬(ease = 1 ∨ ease = 2 ∨ ease = 3 ∨ ease = 4) →
      answer_card card_id ease outcome =
        ([], "Error: Ease must be 1 (Again), 2 (Hard), 3 (Good), or 4 (Easy)"))
    ∧ ((ease = 1 ∨ ease = 2 ∨ ease = 3 ∨ ease = 4) →
        (answer_card card_id ease outcome).1 = [.answerCards card_id ease]
        ∧ (answer_card card_id ease .connError).2 =
            "Error: Could not connect to AnkiConnect. Make sure Anki is running and AnkiConnect addon is installed."
        ∧ (answer_card card_id ease .timeoutError).2 =
            "Error: Request to AnkiConnect timed out."
        ∧ ∀ msg, (answer_card card_id ease (.otherRaise msg)).2 =
            "Error answering card: " ++ msg) := by
  constructor
  · intro h
    simp [answer_card, h]
  · intro h
    refine ⟨?_, by simp [answer_card, h], by simp [answer_card, h],
      fun msg => by simp [answer_card, h]⟩
    rcases outcome with _ | _ | msg | ⟨err, success⟩ <;>
      (simp [answer_card, h]; try split_ifs) <;> rfl

/-- Witness for C10: a rejected ease 5 call and an accepted ease 3 call. -/
theorem c10_answer_card_witness :
    answer_card 9 5 (.reply none []) =
      ([], "Error: Ease must be 1 (Again), 2 (Hard), 3 (Good), or 4 (Easy)") ∧
    (answer_card 9 3 (.reply none [true])).1 = [.answerCards 9 3] :=
  ⟨(c10_answer_card_characterization 9 5 (.reply none [])).1 (by decide),
   ((c10_answer_card_characterization 9 3 (.reply none [true])).2 (by decide)).1⟩

/-- Helper: one add_message call either leaves the store unchanged or
appends the incoming message at the end. -/
theorem add_message_append_or_id (store : List ChatMsg) (m : ChatMsg) :
    add_message store m = store ∨ add_message store m = store ++ [m] := by
  unfold add_message
  split_ifs <;> simp

/-- Helper: the last stored message always lies in the recent window the
content check scans. -/
theorem getLast_mem_recentWindow (store : List ChatMsg) (x : ChatMsg)
    (h : store.getLast? = some x) : x ∈ recentWindow store := by
  rcases List.eq_nil_or_concat store with rfl | ⟨l, b, rfl⟩
  · simp at h
  · rw [List.concat_eq_append] at h ⊢
    rw [List.getLast?_concat] at h
    injection h with h
    subst h
    unfold recentWindow
    split_ifs with hlen
    · rw [List.drop_append_of_le_length
        (by simp only [List.length_append, List.length_singleton] at hlen ⊢; omega)]
      exact List.mem_append_right _ (by simp)
    · exact List.mem_append_right _ (by simp)

/-- Helper: add_message preserves the store invariant. -/
theorem storeOk_add (store : List ChatMsg) (m : ChatMsg) (h : StoreOk store) :
    StoreOk (add_message store m) := by
  unfold add_message
  split_ifs with h1 h2
  · exact h
  · exact h
  · constructor
    · rw [List.pairwise_append]
      refine ⟨h.1, List.pairwise_singleton _ _, ?_⟩
      intro a ha b hb
      rw [List.mem_singleton] at hb
      subst hb
      intro he
      exact h1 (List.any_eq_true.mpr ⟨a, ha, by simp [he]⟩)
    · rw [List.chain'_append]
      refine ⟨h.2, List.chain'_singleton _, ?_⟩
      intro x hx y hy
      simp only [List.head?_cons, Option.mem_def, Option.some.injEq] at hy
      subst hy
      intro hcon
      apply h2
      exact List.any_eq_true.mpr
        ⟨x, getLast_mem_recentWindow store x hx, by simp [hcon.1, hcon.2]⟩

/-- C7: starting from the empty per-session history, any sequence of
add_message calls yields a store with pairwise-distinct message ids and no
two consecutive same-kind messages of equal normalized content, and every
accepted message is appended at the end. -/
theorem c7_store_invariant (msgs : List ChatMsg) :
    StoreOk (msgs.foldl add_message []) ∧
    ∀ store m, add_message store m = store ∨ add_message store m = store ++ [m] := by
  constructor
  · have hstep : ∀ (rest : List ChatMsg) (acc : List ChatMsg),
        StoreOk acc → StoreOk (rest.foldl add_message acc) := by
      intro rest
      induction rest with
      | nil => intro acc h; exact h
      | cons m tail ih => intro acc h; exact ih _ (storeOk_add acc m h)
    exact hstep msgs [] ⟨List.Pairwise.nil, List.chain'_nil⟩
  · exact add_message_append_or_id

/-- Helper: the cooldown test as a proposition. -/
theorem cooldownHit_iff (last : Option ℚ) (now : ℚ) :
    cooldownHit last now = true ↔ ∃ t, last = some t ∧ now - t < 1/2 := by
  cases last <;> simp [cooldownHit]

/-- Helper: the similarity test as a proposition. -/
theorem similarityHit_iff (last : Option String) (content : String) :
    similarityHit last content = true ↔
      ∃ c, last = some c ∧ ratioQ c content > 4/5 := by
  cases last <;> simp [similarityHit]

/-- Helper: the emitted flag of one filter step, characterized through the
Boolean tests the filter performs. -/
theorem handleInterrupt_emitted_iff (md5 : String → String)
    (st : InterruptFilterState) (now : ℚ) (content : String) :
    (handleInterrupt md5 st now content).emitted = false ↔
      (st.waiting_for_input = true
       ∨ cooldownHit st.last_interrupt_time now = true
       ∨ similarityHit st.last_interrupt_content content = true
       ∨ (interruptChecks md5 content).any (fun c =>
            c ∈ st.sent_message_contents || c ∈ st.sent_message_hashes) = true
       ∨ (3 ≤ (keyPhrases content).length ∧
          phraseSignature content ∈ st.sent_message_contents)) := by
  simp only [handleInterrupt]
  split_ifs with h1 h2 h3 h4 h5 h6 <;> simp_all

/-- C1 (amended): a handled interrupt is suppressed, with no ai_response
event, exactly when waiting_for_input is already set, or less than the 0.5
second cooldown elapsed since the last accepted interrupt, or the ratio
against the last accepted content is strictly greater than 0.80, or one
of the three normalized variants or their hashes is already recorded, or
the content has at least three key phrases whose signature is already
recorded; otherwise the ai_response event is emitted exactly once. -/
theorem c1_filter_characterization (md5 : String → String)
    (st : InterruptFilterState) (now : ℚ) (content : String) :
    (handleInterrupt md5 st now content).emitted = false ↔
      st.waiting_for_input = true
      ∨ (∃ t, st.last_interrupt_time = some t ∧ now - t < 1/2)
      ∨ (∃ c, st.last_interrupt_content = some c ∧ ratioQ c content > 4/5)
      ∨ (∃ v ∈ interruptChecks md5 content,
          v ∈ st.sent_message_contents ∨ v ∈ st.sent_message_hashes)
      ∨ (3 ≤ (keyPhrases content).length ∧
          phraseSignature content ∈ st.sent_message_contents) := by
  rw [handleInterrupt_emitted_iff, cooldownHit_iff, similarityHit_iff]
  simp only [List.any_eq_true, Bool.or_eq_true, decide_eq_true_eq]

/-- C1 counterexample, refuting the claimed conditions in both directions.
First, at a state that accepted abcde, the content abcdf has similarity
ratio exactly 0.80, which meets the at-least-0.80 condition of the claim,
yet the filter emits the ai_response because the source compares with a
strict greater.  Second, at a state that accepted c1ContentA, the content
c1ContentB meets none of the four claimed conditions, with all elapsed,
similarity and membership facts spelled out, yet it is suppressed with no
ai_response by the key-phrase signature check the claim omits. -/
theorem c1_counterexample :
    (ratioQ "abcde" "abcdf" = 4/5 ∧
      (handleInterrupt exampleMd5 c1StateA 1 "abcdf").emitted = true)
    ∧ ((handleInterrupt exampleMd5 c1StateB 1 c1ContentB).emitted = false
       ∧ c1StateB.waiting_for_input = false
       ∧ c1StateB.last_interrupt_time = some 0
       ∧ ¬((1 : ℚ) - 0 < 1/2)
       ∧ c1StateB.last_interrupt_content = some c1ContentA
       ∧ ratioQ c1ContentA c1ContentB < 4/5
       ∧ (∀ v ∈ interruptChecks exampleMd5 c1ContentB,
            v ∉ c1StateB.sent_message_contents ∧ v ∉ c1StateB.sent_message_hashes)) := by
  have hm1 : matchTotalAux "abcde".data "abcdf".data 11 0 5 0 5 = 4 := by decide
  have hr1 : ratioQ "abcde" "abcdf" = 4/5 := by
    have h1 : "abcde".data.length = 5 := rfl
    have h2 : "abcdf".data.length = 5 := rfl
    simp only [ratioQ, h1, h2]
    rw [show (5 + 5 + 1 : Nat) = 11 from rfl, hm1]
    norm_num
  have hm2 : matchTotalAux c1ContentA.data c1ContentB.data 39 0 19 0 19 = 7 := by decide
  have hr2 : ratioQ c1ContentA c1ContentB = 7/19 := by
    have h1 : c1ContentA.data.length = 19 := rfl
    have h2 : c1ContentB.data.length = 19 := rfl
    simp only [ratioQ, h1, h2]
    rw [show (19 + 19 + 1 : Nat) = 39 from rfl, hm2]
    norm_num
  have hA : c1StateA =
      ⟨false, some 0, some "abcde", ["abcde", "md5:abcde"], []⟩ := rfl
  have hB : c1StateB =
      ⟨false, some 0, some c1ContentA,
        ["dddd|eeee|ffff", c1ContentA, "md5:dddd eeee ffff gggg"], []⟩ := rfl
  have hEmitA : (handleInterrupt exampleMd5 c1StateA 1 "abcdf").emitted = true := by
    by_contra hc
    rw [Bool.not_eq_true] at hc
    have hd := (handleInterrupt_emitted_iff exampleMd5 c1StateA 1 "abcdf").mp hc
    rcases hd with h | h | h | h | h
    · simp [hA] at h
    · simp only [hA, cooldownHit, decide_eq_true_eq] at h
      norm_num at h
    · simp only [hA, similarityHit, decide_eq_true_eq] at h
      rw [hr1] at h
      norm_num at h
    · rw [hA] at h
      exact absurd h (by decide)
    · rw [hA] at h
      exact absurd h (by decide)
  have hEmitB : (handleInterrupt exampleMd5 c1StateB 1 c1ContentB).emitted = false := by
    rw [handleInterrupt_emitted_iff]
    refine Or.inr (Or.inr (Or.inr (Or.inr ⟨by decide, ?_⟩)))
    rw [hB]
    decide
  refine ⟨⟨hr1, hEmitA⟩, hEmitB, by rw [hB], by rw [hB], by norm_num, by rw [hB], ?_, ?_⟩
  · rw [hr2]
    norm_num
  · rw [hB]
    decide

end Kotori
